import Mathlib

/-!
Verification development for the tree-estimator layer of `sktree/tree/_classes.py`
(scikit-tree).  Pure computations (the affinity matrix, parameter validation,
builder selection, constructor defaults) are embedded directly from the Python
source; the Cython collaborators that are not part of the source tree (the
built tree's `apply`, the external clustering routine, the builder's stopping
predicate) are modelled from the specification and marked as such.
-/

namespace SkTree

/-- Leaf ids are non-negative machine integers (`np.intp`); we model them as `Nat`.
A leaf-assignment vector (`X_leaves`) holds one leaf id per sample. -/
abbrev Leaves := List Nat

/-- Embeds `np.unique(X_leaves)` from `_compute_affinity_matrix`
(src/sktree/tree/_classes.py:334): the sorted list of distinct leaf values. -/
def unique_leaves (X_leaves : Leaves) : List Nat :=
  X_leaves.dedup.insertionSort (fun a b => a ≤ b)

/-- Embeds one iteration of the loop body of `_compute_affinity_matrix`
(src/sktree/tree/_classes.py:334-337): `samples_in_leaf` is the set of indices
`i` with `X_leaves[i] == leaf`, and `aff_matrix[np.ix_(samples_in_leaf,
samples_in_leaf)] += 1` adds 1 to every entry whose row and column index both
lie in `samples_in_leaf`.  The matrix is modelled as a total entry function. -/
def aff_update (X_leaves : Leaves) (leaf : Nat) (M : Nat → Nat → Int) :
    Nat → Nat → Int :=
  fun i j =>
    if X_leaves[i]? = some leaf ∧ X_leaves[j]? = some leaf then M i j + 1 else M i j

/-- Embeds `UnsupervisedDecisionTree._compute_affinity_matrix`
(src/sktree/tree/_classes.py:316-339) as an entry function: start from the zero
matrix (`np.zeros((n_samples, n_samples), dtype=np.int32)`) and, for every
unique leaf value, increment all pairwise entries among samples sharing it. -/
def compute_affinity_matrix_fn (X_leaves : Leaves) : Nat → Nat → Int :=
  (unique_leaves X_leaves).foldl (fun M leaf => aff_update X_leaves leaf M)
    (fun _ _ => 0)

/-- The affinity matrix as the `n_samples × n_samples` array the Python method
returns, with rows materialised from the entry function. -/
def compute_affinity_matrix (X_leaves : Leaves) : List (List Int) :=
  (List.range X_leaves.length).map fun i =>
    (List.range X_leaves.length).map fun j => compute_affinity_matrix_fn X_leaves i j

/-- Modelled from the spec: "the built Tree (queryable via `apply(X) -> leaf
ids`)".  The Cython `UnsupervisedTree` container is not part of the source
tree; only its `apply` capability is needed by the estimator layer. -/
structure UnsupervisedTree (α : Type) where
  apply : α → Nat

/-- The mutable attributes of an `UnsupervisedDecisionTree` estimator that the
`fit`/`transform`/`predict`/`_assign_labels` methods read or write.  A
clustering routine is any function satisfying the spec contract
`fit_predict(affinity_matrix) -> labels`. -/
structure UnsupervisedDecisionTreeModel (α : Type) where
  clustering_func : Option (List (List Int) → List Int)
  tree_ : Option (UnsupervisedTree α)
  affinity_matrix_ : Option (List (List Int))
  labels_ : Option (List Int)

/-- Embeds `UnsupervisedDecisionTree._assign_labels`
(src/sktree/tree/_classes.py:341-366): use `self.clustering_func` when
configured, else the default `AgglomerativeClustering` — external sklearn
code, modelled from the spec as the parameter `agglomerative` (the instance's
`fit_predict`, with `clustering_func_args` already applied); return
`cluster.fit_predict(affinity_matrix)`. -/
def assign_labels {α : Type} (agglomerative : List (List Int) → List Int)
    (s : UnsupervisedDecisionTreeModel α) (affinity_matrix : List (List Int)) :
    List Int :=
  (s.clustering_func.getD agglomerative) affinity_matrix

/-- Embeds `UnsupervisedDecisionTree.fit` (src/sktree/tree/_classes.py:188-212).
`super().fit(X, None, ...)` grows the tree with no target; the Cython build is
modelled from the spec as the parameter `build`.  Then `X_leaves =
self.apply(X)` maps every training sample to its leaf,
`self.affinity_matrix_ = self._compute_affinity_matrix(X_leaves)`, and when
`n_samples >= 2` also `self.labels_ = self._assign_labels(self.affinity_matrix_)`.
`return self` is modelled by returning the new state both as the call's result
(first component) and as the updated estimator (second component). -/
def fit {α : Type} (agglomerative : List (List Int) → List Int)
    (build : List α → UnsupervisedTree α)
    (s : UnsupervisedDecisionTreeModel α) (X : List α) :
    UnsupervisedDecisionTreeModel α × UnsupervisedDecisionTreeModel α :=
  let s0 := { s with tree_ := some (build X) }
  let X_leaves := X.map (build X).apply
  let s1 := { s0 with affinity_matrix_ := some (compute_affinity_matrix X_leaves) }
  let s2 :=
    if 2 ≤ X.length then
      let lbls := assign_labels agglomerative s1 (compute_affinity_matrix X_leaves)
      { s1 with labels_ := some lbls }
    else s1
  (s2, s2)

/-- Embeds `UnsupervisedDecisionTree.transform` (src/sktree/tree/_classes.py:291-314):
`check_is_fitted(self)` fails (`none`) when no tree has been built; otherwise
`X_leaves = self.apply(X)` is recomputed against the stored tree and the
affinity matrix is returned.  The method body performs no assignment to
`self`, so the estimator state comes back unchanged in the second component. -/
def transform {α : Type} (s : UnsupervisedDecisionTreeModel α) (X : List α) :
    Option (List (List Int) × UnsupervisedDecisionTreeModel α) :=
  match s.tree_ with
  | none => none
  | some t => some (compute_affinity_matrix (X.map t.apply), s)

/-- Embeds `UnsupervisedDecisionTree.predict` (src/sktree/tree/_classes.py:269-289):
`affinity_matrix = self.transform(X); return self._assign_labels(affinity_matrix)`. -/
def predict {α : Type} (agglomerative : List (List Int) → List Int)
    (s : UnsupervisedDecisionTreeModel α) (X : List α) : Option (List Int) :=
  match transform s X with
  | none => none
  | some (affinity_matrix, s1) => some (assign_labels agglomerative s1 affinity_matrix)

/-- The two tree-growth orderings dispatched by every `_build_tree` variant. -/
inductive TreeBuilderKind where
  | depthFirst
  | bestFirst
deriving DecidableEq

/-- The two Python exception classes raised by the estimator layer:
`RuntimeError` for configuration errors and `ValueError` for unsupported
input.  Messages elide the f-string interpolated values. -/
inductive BuildError where
  | runtimeError (msg : String)
  | valueError (msg : String)
deriving DecidableEq

/-- The sparse-input rejection message shared by the oblique and patch
`_build_tree` methods (src/sktree/tree/_classes.py:887-890 and 1301-1304). -/
def sparse_error_msg : String :=
  "Sparse input is not supported for oblique trees. Please convert your data to a dense array."

/-- What `ObliqueDecisionTreeClassifier._build_tree` establishes when it
reaches `builder.build`: the validated `feature_combinations_` and the chosen
builder. -/
structure ObliqueBuildResult where
  feature_combinations_ : ℚ
  builder : TreeBuilderKind
deriving DecidableEq

/-- Embeds `ObliqueDecisionTreeClassifier._build_tree`
(src/sktree/tree/_classes.py:818-935) up to the `builder.build` call, in
source order: resolve/validate `feature_combinations` against `n_features`
(lines 863-871, raising `RuntimeError` when it exceeds `n_features`), reject
sparse input with a `ValueError` (lines 886-890) before the splitter is
constructed, then dispatch `DepthFirstTreeBuilder` when `max_leaf_nodes < 0`
and `BestFirstTreeBuilder` otherwise (lines 914-933).  An `ok` result means
tree growth began. -/
def oblique_build_tree (feature_combinations : Option ℚ) (sparseX : Bool)
    (n_features : Nat) (max_leaf_nodes : Int) :
    Except BuildError ObliqueBuildResult :=
  match feature_combinations with
  | none =>
      if sparseX then Except.error (BuildError.valueError sparse_error_msg)
      else Except.ok
        { feature_combinations_ := min (n_features : ℚ) (3 / 2),
          builder := if max_leaf_nodes < 0 then TreeBuilderKind.depthFirst
                     else TreeBuilderKind.bestFirst }
  | some fc =>
      if fc > (n_features : ℚ) then
        Except.error (BuildError.runtimeError
          "Feature combinations should not be greater than the possible number of features")
      else if sparseX then Except.error (BuildError.valueError sparse_error_msg)
      else Except.ok
        { feature_combinations_ := fc,
          builder := if max_leaf_nodes < 0 then TreeBuilderKind.depthFirst
                     else TreeBuilderKind.bestFirst }

/-- Embeds `UnsupervisedObliqueDecisionTree._build_tree`
(src/sktree/tree/_classes.py:494-550) up to the `builder.build` call.  Note
the source comment `TODO: add feature_combinations fix that was used in
obliquedecisiontreeclassifier`: this method performs no validation of
`feature_combinations` against `n_features` and no sparse check — the
splitter is constructed with `self.feature_combinations` as given and
`builder.build` is always reached. -/
def unsup_oblique_build_tree (feature_combinations : ℚ) (n_features : Nat)
    (max_leaf_nodes : Int) : Except BuildError TreeBuilderKind :=
  Except.ok (if max_leaf_nodes < 0 then TreeBuilderKind.depthFirst
             else TreeBuilderKind.bestFirst)

/-- Embeds `UnsupervisedDecisionTree._build_tree`
(src/sktree/tree/_classes.py:214-267) up to the `builder.build` call:
criterion/splitter construction, then builder dispatch on `max_leaf_nodes`. -/
def unsup_build_tree (max_leaf_nodes : Int) : Except BuildError TreeBuilderKind :=
  Except.ok (if max_leaf_nodes < 0 then TreeBuilderKind.depthFirst
             else TreeBuilderKind.bestFirst)

/-- Embeds `PatchObliqueDecisionTreeClassifier._build_tree`
(src/sktree/tree/_classes.py:1241-1354) up to the `builder.build` call: sparse
input is rejected with a `ValueError` (lines 1300-1304) before the patch
splitter is constructed, then builder dispatch on `max_leaf_nodes`. -/
def patch_build_tree (sparseX : Bool) (max_leaf_nodes : Int) :
    Except BuildError TreeBuilderKind :=
  if sparseX then Except.error (BuildError.valueError sparse_error_msg)
  else Except.ok (if max_leaf_nodes < 0 then TreeBuilderKind.depthFirst
                  else TreeBuilderKind.bestFirst)

/-- Embeds the validation block of `PatchObliqueDecisionTreeClassifier.fit`
(src/sktree/tree/_classes.py:1203-1238), in source order: resolve
`data_width_` (`X.shape[1]`, i.e. `n_features`, when `data_width is None`),
then raise `RuntimeError` if `data_height_ * data_width_ != n_features`, if
`min_patch_height > max_patch_height`, if `min_patch_width > max_patch_width`,
if `max_patch_width > data_width_`, or if `max_patch_height > data_height_`;
on success return the resolved `(data_height_, data_width_)`. -/
def patch_fit_validate (min_patch_height max_patch_height min_patch_width
    max_patch_width data_height : Nat) (data_width : Option Nat)
    (n_features : Nat) : Except BuildError (Nat × Nat) :=
  let data_width_ := data_width.getD n_features
  let data_height_ := data_height
  if data_height_ * data_width_ ≠ n_features then
    Except.error (BuildError.runtimeError
      "The passed in data height and width does not equal the number of columns in X")
  else if min_patch_height > max_patch_height then
    Except.error (BuildError.runtimeError
      "The minimum patch height is greater than the maximum patch height")
  else if min_patch_width > max_patch_width then
    Except.error (BuildError.runtimeError
      "The minimum patch width is greater than the maximum patch width")
  else if max_patch_width > data_width_ then
    Except.error (BuildError.runtimeError
      "The maximum patch width is greater than the data width")
  else if max_patch_height > data_height_ then
    Except.error (BuildError.runtimeError
      "The maximum patch height is greater than the data height")
  else Except.ok (data_height_, data_width_)

/-- Embeds `PatchObliqueDecisionTreeClassifier.fit`
(src/sktree/tree/_classes.py:1153-1239) after input checking: run the patch
configuration validation, then `super().fit` grows the tree via
`_build_tree`. -/
def patch_fit (min_patch_height max_patch_height min_patch_width
    max_patch_width data_height : Nat) (data_width : Option Nat)
    (n_features : Nat) (sparseX : Bool) (max_leaf_nodes : Int) :
    Except BuildError TreeBuilderKind :=
  match patch_fit_validate min_patch_height max_patch_height min_patch_width
      max_patch_width data_height data_width n_features with
  | Except.error e => Except.error e
  | Except.ok _ => patch_build_tree sparseX max_leaf_nodes

/-- The constructor keyword defaults shared by both unsupervised tree
estimators. -/
structure UnsupervisedTreeDefaults where
  criterion : String
  splitter : String
  max_depth : Option Nat
  min_samples_split : Nat
  min_samples_leaf : Nat
  min_weight_fraction_leaf : ℚ
  max_features : Option Nat
  max_leaf_nodes : Option Nat
  min_impurity_decrease : ℚ

/-- Embeds the keyword defaults of `UnsupervisedDecisionTree.__init__`
(src/sktree/tree/_classes.py:156-171). -/
def unsupervised_decision_tree_defaults : UnsupervisedTreeDefaults :=
  { criterion := "twomeans", splitter := "best", max_depth := none,
    min_samples_split := 5, min_samples_leaf := 1, min_weight_fraction_leaf := 0,
    max_features := none, max_leaf_nodes := none, min_impurity_decrease := 0 }

/-- Embeds the keyword defaults of `UnsupervisedObliqueDecisionTree.__init__`
(src/sktree/tree/_classes.py:461-477); its extra `feature_combinations`
defaults to 1.5 and is embedded separately. -/
def unsupervised_oblique_decision_tree_defaults : UnsupervisedTreeDefaults :=
  { criterion := "twomeans", splitter := "best", max_depth := none,
    min_samples_split := 5, min_samples_leaf := 1, min_weight_fraction_leaf := 0,
    max_features := none, max_leaf_nodes := none, min_impurity_decrease := 0 }

/-- Embeds the `feature_combinations=1.5` default of
`UnsupervisedObliqueDecisionTree.__init__` (src/sktree/tree/_classes.py:474). -/
def unsupervised_oblique_feature_combinations_default : ℚ := 3 / 2

/-- The default both unsupervised trees' docstrings state for
`min_samples_split` ("int or float, default=2",
src/sktree/tree/_classes.py:86 and 388). -/
def documented_min_samples_split_default : Nat := 2

/-- Modelled from the spec: the tree builders' stopping predicate (spec
section 4.3) — "(depth >= max_depth) OR (weighted_n_node_samples <
min_samples_split) OR (node is pure) OR (no admissible split found)"; a node
it holds for is marked a leaf and never split.  The Cython tree builders are
not under src. -/
def stopping_predicate (max_depth : Option Nat) (min_samples_split : Nat)
    (depth n_node_samples : Nat) (node_is_pure no_admissible_split : Bool) :
    Bool :=
  (match max_depth with
   | some d => decide (depth ≥ d)
   | none => false)
    || decide (n_node_samples < min_samples_split)
    || node_is_pure || no_admissible_split

/-- A concrete single-feature "tree" for witnesses: samples are natural
numbers, the leaf id is the parity. -/
def sample_tree : UnsupervisedTree Nat := { apply := fun x => x % 2 }

/-- A concrete fitted estimator state for witnesses. -/
def sample_state : UnsupervisedDecisionTreeModel Nat :=
  { clustering_func := none, tree_ := some sample_tree,
    affinity_matrix_ := none, labels_ := none }

/-- A concrete never-fitted estimator state for witnesses. -/
def unfitted_state : UnsupervisedDecisionTreeModel Nat :=
  { clustering_func := none, tree_ := none,
    affinity_matrix_ := none, labels_ := none }

/-- A concrete clustering routine for witnesses (all samples in cluster 0). -/
def sample_agglo : List (List Int) → List Int :=
  fun affinity_matrix => List.replicate affinity_matrix.length 0

/-- A concrete tree-building routine for witnesses. -/
def sample_build : List Nat → UnsupervisedTree Nat := fun _ => sample_tree

/-- Folding the per-leaf increment over any list of leaf values adds, to each
entry `(i, j)`, the number of list elements that equal both `X_leaves[i]` and
`X_leaves[j]`. -/
theorem foldl_aff_update (X_leaves : Leaves) (L : List Nat)
    (M : Nat → Nat → Int) (i j : Nat) :
    (L.foldl (fun M leaf => aff_update X_leaves leaf M) M) i j
      = M i j + (L.filter fun leaf =>
          decide (X_leaves[i]? = some leaf ∧ X_leaves[j]? = some leaf)).length := by
  induction L generalizing M with
  | nil => simp
  | cons a L ih =>
      rw [List.foldl_cons, ih, List.filter_cons]
      by_cases h : X_leaves[i]? = some a ∧ X_leaves[j]? = some a
      · rw [if_pos (decide_eq_true h)]
        simp only [aff_update, if_pos h, List.length_cons]
        push_cast
        ring
      · rw [if_neg (by simp [decide_eq_false h])]
        simp only [aff_update, if_neg h]

/-- The list of unique leaves has no duplicates. -/
theorem unique_leaves_nodup (X_leaves : Leaves) : (unique_leaves X_leaves).Nodup :=
  ((List.perm_insertionSort _ X_leaves.dedup).nodup_iff).mpr (List.nodup_dedup X_leaves)

/-- Membership in the list of unique leaves is membership in the assignment
vector. -/
theorem mem_unique_leaves (X_leaves : Leaves) (v : Nat) :
    v ∈ unique_leaves X_leaves ↔ v ∈ X_leaves := by
  unfold unique_leaves
  rw [(List.perm_insertionSort _ X_leaves.dedup).mem_iff, List.mem_dedup]

/-- Central helper: the affinity entry `(i, j)` is 1 when samples `i` and `j`
share their leaf and 0 otherwise. -/
theorem aff_entry_eq (X_leaves : Leaves) (i j : Nat)
    (hi : i < X_leaves.length) (hj : j < X_leaves.length) :
    compute_affinity_matrix_fn X_leaves i j
      = if X_leaves[i] = X_leaves[j] then 1 else 0 := by
  rw [compute_affinity_matrix_fn, foldl_aff_update]
  have hgi : X_leaves[i]? = some X_leaves[i] := List.getElem?_eq_getElem hi
  have hgj : X_leaves[j]? = some X_leaves[j] := List.getElem?_eq_getElem hj
  by_cases h : X_leaves[i] = X_leaves[j]
  · rw [if_pos h]
    have hcount : ((unique_leaves X_leaves).filter fun leaf =>
        decide (X_leaves[i]? = some leaf ∧ X_leaves[j]? = some leaf)).length = 1 := by
      rw [← List.countP_eq_length_filter]
      have hc : List.countP (fun x => x == X_leaves[i]) (unique_leaves X_leaves) = 1 := by
        have hmem : X_leaves[i] ∈ unique_leaves X_leaves :=
          (mem_unique_leaves X_leaves _).mpr (List.getElem_mem hi)
        have := List.count_eq_one_of_mem (unique_leaves_nodup X_leaves) hmem
        rwa [List.count_eq_countP] at this
      rw [← hc]
      apply List.countP_congr
      intro x _
      simp only [hgi, hgj, Option.some.injEq, decide_eq_true_eq, beq_iff_eq]
      omega
    rw [hcount]
    simp
  · rw [if_neg h]
    have : ((unique_leaves X_leaves).filter fun leaf =>
        decide (X_leaves[i]? = some leaf ∧ X_leaves[j]? = some leaf)) = [] := by
      rw [List.filter_eq_nil_iff]
      intro a _
      simp only [hgi, hgj, Option.some.injEq, decide_eq_true_eq, not_and]
      intro h1 h2
      exact h (h1.trans h2.symm)
    rw [this]
    simp

end SkTree

/-- C1: for every leaf-assignment vector `X_leaves` of length `n`,
`_compute_affinity_matrix` returns an `n × n` integer matrix whose entry
`(i, j)` equals 1 if `X_leaves[i] == X_leaves[j]` and 0 otherwise: all
pairwise entries (including self-pairs) among samples sharing a distinct leaf
value are incremented by exactly 1. -/
theorem C1_affinity_matrix_entries (X_leaves : SkTree.Leaves) (i j : Nat)
    (hi : i < X_leaves.length) (hj : j < X_leaves.length) :
    SkTree.compute_affinity_matrix_fn X_leaves i j
        = (if X_leaves[i] = X_leaves[j] then 1 else 0)
      ∧ (SkTree.compute_affinity_matrix X_leaves).length = X_leaves.length
      ∧ ((SkTree.compute_affinity_matrix X_leaves)[i]?.bind fun row => row[j]?)
          = some (if X_leaves[i] = X_leaves[j] then 1 else 0) := by
  refine ⟨SkTree.aff_entry_eq X_leaves i j hi hj, by
    simp [SkTree.compute_affinity_matrix], ?_⟩
  simp [SkTree.compute_affinity_matrix, List.getElem?_map, List.getElem?_range, hi, hj,
    SkTree.aff_entry_eq X_leaves i j hi hj]

/-- C1 witness: concrete evaluation at `X_leaves = [7, 4, 7]`, `i = 0`, `j = 2`
(same leaf) — the theorem's hypotheses hold and the entry is 1. -/
theorem C1_affinity_matrix_entries_witness :
    SkTree.compute_affinity_matrix_fn [7, 4, 7] 0 2
        = (if ([7, 4, 7] : List Nat)[0] = ([7, 4, 7] : List Nat)[2] then 1 else 0)
      ∧ (SkTree.compute_affinity_matrix [7, 4, 7]).length = ([7, 4, 7] : List Nat).length
      ∧ ((SkTree.compute_affinity_matrix [7, 4, 7])[0]?.bind fun row => row[2]?)
          = some (if ([7, 4, 7] : List Nat)[0] = ([7, 4, 7] : List Nat)[2] then 1 else 0) :=
  C1_affinity_matrix_entries [7, 4, 7] 0 2 (by decide) (by decide)

/-- C2: the affinity matrix is square, symmetric, with non-negative integer
entries, and every diagonal entry equals 1 (each sample is assigned exactly one
leaf id). -/
theorem C2_affinity_matrix_invariants (X_leaves : SkTree.Leaves) (i j : Nat)
    (hi : i < X_leaves.length) (hj : j < X_leaves.length) :
    (SkTree.compute_affinity_matrix X_leaves).length = X_leaves.length
      ∧ (∀ row ∈ SkTree.compute_affinity_matrix X_leaves, row.length = X_leaves.length)
      ∧ SkTree.compute_affinity_matrix_fn X_leaves i j
          = SkTree.compute_affinity_matrix_fn X_leaves j i
      ∧ 0 ≤ SkTree.compute_affinity_matrix_fn X_leaves i j
      ∧ SkTree.compute_affinity_matrix_fn X_leaves i i = 1 := by
  refine ⟨by simp [SkTree.compute_affinity_matrix], ?_, ?_, ?_, ?_⟩
  · intro row hrow
    simp only [SkTree.compute_affinity_matrix, List.mem_map] at hrow
    obtain ⟨k, -, rfl⟩ := hrow
    simp
  · rw [SkTree.aff_entry_eq X_leaves i j hi hj, SkTree.aff_entry_eq X_leaves j i hj hi]
    simp [eq_comm]
  · rw [SkTree.aff_entry_eq X_leaves i j hi hj]
    split <;> simp
  · rw [SkTree.aff_entry_eq X_leaves i i hi hi]
    simp

/-- C3: for `n ≥ 2` samples, `UnsupervisedDecisionTree.fit` builds the tree
with no target, stores the affinity matrix computed from the per-sample leaf
assignments (`apply`) in `affinity_matrix_`, stores the clustering of that
matrix in `labels_`, and returns the estimator itself. -/
theorem C3_fit_stores_state {α : Type}
    (agglomerative : List (List Int) → List Int)
    (build : List α → SkTree.UnsupervisedTree α)
    (s : SkTree.UnsupervisedDecisionTreeModel α) (X : List α)
    (h : 2 ≤ X.length) :
    (SkTree.fit agglomerative build s X).1 = (SkTree.fit agglomerative build s X).2
      ∧ (SkTree.fit agglomerative build s X).2.tree_ = some (build X)
      ∧ (SkTree.fit agglomerative build s X).2.affinity_matrix_
          = some (SkTree.compute_affinity_matrix (X.map (build X).apply))
      ∧ (SkTree.fit agglomerative build s X).2.labels_
          = some ((s.clustering_func.getD agglomerative)
              (SkTree.compute_affinity_matrix (X.map (build X).apply))) := by
  refine ⟨rfl, ?_, ?_, ?_⟩ <;>
    simp [SkTree.fit, SkTree.assign_labels, h]

/-- C3 witness: fitting the concrete estimator on the two samples `[0, 1]`. -/
theorem C3_fit_stores_state_witness :
    (SkTree.fit SkTree.sample_agglo SkTree.sample_build SkTree.unfitted_state [0, 1]).1
        = (SkTree.fit SkTree.sample_agglo SkTree.sample_build SkTree.unfitted_state [0, 1]).2
      ∧ (SkTree.fit SkTree.sample_agglo SkTree.sample_build SkTree.unfitted_state [0, 1]).2.tree_
          = some (SkTree.sample_build [0, 1])
      ∧ (SkTree.fit SkTree.sample_agglo SkTree.sample_build SkTree.unfitted_state [0, 1]).2.affinity_matrix_
          = some (SkTree.compute_affinity_matrix ([0, 1].map (SkTree.sample_build [0, 1]).apply))
      ∧ (SkTree.fit SkTree.sample_agglo SkTree.sample_build SkTree.unfitted_state [0, 1]).2.labels_
          = some ((SkTree.unfitted_state.clustering_func.getD SkTree.sample_agglo)
              (SkTree.compute_affinity_matrix ([0, 1].map (SkTree.sample_build [0, 1]).apply))) :=
  C3_fit_stores_state SkTree.sample_agglo SkTree.sample_build SkTree.unfitted_state [0, 1]
    (by decide)

/-- C4: on a fitted estimator, `predict(X)` returns exactly the clustering
routine's `fit_predict` applied to the affinity matrix `transform(X)` yields;
when no `clustering_func` is configured the routine used is the default
agglomerative clustering. -/
theorem C4_predict_delegates_to_clustering {α : Type}
    (agglomerative : List (List Int) → List Int)
    (s : SkTree.UnsupervisedDecisionTreeModel α) (X : List α)
    (t : SkTree.UnsupervisedTree α) (h : s.tree_ = some t) :
    SkTree.predict agglomerative s X
        = some (SkTree.assign_labels agglomerative s
            (SkTree.compute_affinity_matrix (X.map t.apply)))
      ∧ (s.clustering_func = none →
          ∀ affinity_matrix, SkTree.assign_labels agglomerative s affinity_matrix
            = agglomerative affinity_matrix) := by
  constructor
  · simp [SkTree.predict, SkTree.transform, h]
  · intro hc affinity_matrix
    simp [SkTree.assign_labels, hc]

/-- C4 witness: predicting with the concrete fitted estimator on `[0, 1, 2]`. -/
theorem C4_predict_delegates_to_clustering_witness :
    SkTree.predict SkTree.sample_agglo SkTree.sample_state [0, 1, 2]
        = some (SkTree.assign_labels SkTree.sample_agglo SkTree.sample_state
            (SkTree.compute_affinity_matrix ([0, 1, 2].map SkTree.sample_tree.apply)))
      ∧ (SkTree.sample_state.clustering_func = none →
          ∀ affinity_matrix,
            SkTree.assign_labels SkTree.sample_agglo SkTree.sample_state affinity_matrix
              = SkTree.sample_agglo affinity_matrix) :=
  C4_predict_delegates_to_clustering SkTree.sample_agglo SkTree.sample_state [0, 1, 2]
    SkTree.sample_tree rfl

/-- C5: on a fitted estimator, `transform(X)` recomputes leaf assignments and
the affinity matrix for `X` against the already-built tree and returns that
matrix with the estimator state unchanged (`tree_`, `affinity_matrix_`,
`labels_` untouched, no rebuild); calling `transform` before `fit` fails. -/
theorem C5_transform_frame {α : Type}
    (s : SkTree.UnsupervisedDecisionTreeModel α) (X : List α)
    (t : SkTree.UnsupervisedTree α) (h : s.tree_ = some t) :
    SkTree.transform s X
        = some (SkTree.compute_affinity_matrix (X.map t.apply), s)
      ∧ (∀ p, SkTree.transform s X = some p →
          p.2.tree_ = s.tree_ ∧ p.2.affinity_matrix_ = s.affinity_matrix_
            ∧ p.2.labels_ = s.labels_)
      ∧ (∀ s2 : SkTree.UnsupervisedDecisionTreeModel α,
          s2.tree_ = none → SkTree.transform s2 X = none) := by
  refine ⟨by simp [SkTree.transform, h], ?_, ?_⟩
  · intro p hp
    simp only [SkTree.transform, h] at hp
    obtain rfl : (SkTree.compute_affinity_matrix (X.map t.apply), s) = p :=
      Option.some.inj hp
    exact ⟨rfl, rfl, rfl⟩
  · intro s2 h2
    simp [SkTree.transform, h2]

/-- C5 witness: transforming `[0, 1, 2]` with the concrete fitted estimator. -/
theorem C5_transform_frame_witness :
    SkTree.transform SkTree.sample_state [0, 1, 2]
        = some (SkTree.compute_affinity_matrix ([0, 1, 2].map SkTree.sample_tree.apply),
            SkTree.sample_state)
      ∧ (∀ p, SkTree.transform SkTree.sample_state [0, 1, 2] = some p →
          p.2.tree_ = SkTree.sample_state.tree_
            ∧ p.2.affinity_matrix_ = SkTree.sample_state.affinity_matrix_
            ∧ p.2.labels_ = SkTree.sample_state.labels_)
      ∧ (∀ s2 : SkTree.UnsupervisedDecisionTreeModel Nat,
          s2.tree_ = none → SkTree.transform s2 [0, 1, 2] = none) :=
  C5_transform_frame SkTree.sample_state [0, 1, 2] SkTree.sample_tree rfl

/-- C6: in every `_build_tree` variant (unsupervised axis-aligned,
unsupervised oblique, supervised oblique, patch) the best-first builder is
selected exactly when `max_leaf_nodes` is bounded (sklearn's fit passes the
sentinel -1 for unbounded) and the depth-first builder exactly when
`max_leaf_nodes < 0`. -/
theorem C6_builder_selection (m : Int) (ufc : ℚ) (nf : Nat) :
    (SkTree.unsup_build_tree m = Except.ok SkTree.TreeBuilderKind.bestFirst ↔ 0 ≤ m)
      ∧ (SkTree.unsup_build_tree m = Except.ok SkTree.TreeBuilderKind.depthFirst ↔ m < 0)
      ∧ (SkTree.unsup_oblique_build_tree ufc nf m
            = Except.ok SkTree.TreeBuilderKind.bestFirst ↔ 0 ≤ m)
      ∧ (SkTree.unsup_oblique_build_tree ufc nf m
            = Except.ok SkTree.TreeBuilderKind.depthFirst ↔ m < 0)
      ∧ ((SkTree.oblique_build_tree none false nf m).map SkTree.ObliqueBuildResult.builder
            = Except.ok SkTree.TreeBuilderKind.bestFirst ↔ 0 ≤ m)
      ∧ ((SkTree.oblique_build_tree none false nf m).map SkTree.ObliqueBuildResult.builder
            = Except.ok SkTree.TreeBuilderKind.depthFirst ↔ m < 0)
      ∧ (SkTree.patch_build_tree false m = Except.ok SkTree.TreeBuilderKind.bestFirst ↔ 0 ≤ m)
      ∧ (SkTree.patch_build_tree false m = Except.ok SkTree.TreeBuilderKind.depthFirst ↔ m < 0) := by
  by_cases hm : m < 0 <;>
    simp [SkTree.unsup_build_tree, SkTree.unsup_oblique_build_tree,
      SkTree.oblique_build_tree, SkTree.patch_build_tree, Except.map, hm]
  all_goals omega

/-- C7 (code bug): the supervised oblique classifier rejects
`feature_combinations > n_features` with a `RuntimeError` before growth, but
`UnsupervisedObliqueDecisionTree._build_tree` performs no such validation (its
`TODO` comment records the missing fix): with `feature_combinations = 10` on 2
features it constructs the splitter and reaches `builder.build`. -/
theorem C7_unsup_oblique_missing_validation :
    SkTree.unsup_oblique_build_tree 10 2 (-1)
        = Except.ok SkTree.TreeBuilderKind.depthFirst
      ∧ SkTree.oblique_build_tree (some 10) false 2 (-1)
          = Except.error (SkTree.BuildError.runtimeError
              "Feature combinations should not be greater than the possible number of features")
      ∧ (∀ (fc : ℚ) (nf : Nat) (sp : Bool) (m : Int), fc > (nf : ℚ) →
          SkTree.oblique_build_tree (some fc) sp nf m
            = Except.error (SkTree.BuildError.runtimeError
                "Feature combinations should not be greater than the possible number of features")) := by
  refine ⟨rfl, ?_, ?_⟩
  · norm_num [SkTree.oblique_build_tree]
  · intro fc nf sp m hfc
    simp [SkTree.oblique_build_tree, hfc]

/-- C8: `PatchObliqueDecisionTreeClassifier.fit` raises a configuration
`RuntimeError` before any tree growth exactly when one of the five patch
configuration violations holds (with `data_width_` resolved to `n_features`
when unset); with a valid configuration none of these errors is raised. -/
theorem C8_patch_fit_validation (min_ph max_ph min_pw max_pw dh : Nat)
    (dw? : Option Nat) (nf : Nat) (sp : Bool) (m : Int) :
    (∃ msg, SkTree.patch_fit min_ph max_ph min_pw max_pw dh dw? nf sp m
        = Except.error (SkTree.BuildError.runtimeError msg))
      ↔ (dh * dw?.getD nf ≠ nf ∨ min_ph > max_ph ∨ min_pw > max_pw
          ∨ max_pw > dw?.getD nf ∨ max_ph > dh) := by
  simp only [SkTree.patch_fit, SkTree.patch_fit_validate, SkTree.patch_build_tree]
  split_ifs with h1 h2 h3 h4 h5 h6 <;> simp_all

/-- C9: sparse input is rejected by the oblique and patch `_build_tree`
methods before the splitter is constructed and before `builder.build` is
called; with the default `feature_combinations` the error is the sparse-input
`ValueError`. -/
theorem C9_sparse_input_rejected (fc? : Option ℚ) (nf : Nat) (m : Int) :
    (∃ e, SkTree.oblique_build_tree fc? true nf m = Except.error e)
      ∧ SkTree.oblique_build_tree none true nf m
          = Except.error (SkTree.BuildError.valueError SkTree.sparse_error_msg)
      ∧ SkTree.patch_build_tree true m
          = Except.error (SkTree.BuildError.valueError SkTree.sparse_error_msg) := by
  refine ⟨?_, rfl, rfl⟩
  match fc? with
  | none => exact ⟨SkTree.BuildError.valueError SkTree.sparse_error_msg, rfl⟩
  | some fc =>
      by_cases hfc : fc > (nf : ℚ)
      · exact ⟨SkTree.BuildError.runtimeError
          "Feature combinations should not be greater than the possible number of features",
          by simp [SkTree.oblique_build_tree, hfc]⟩
      · exact ⟨SkTree.BuildError.valueError SkTree.sparse_error_msg,
          by simp [SkTree.oblique_build_tree, hfc]⟩

/-- C10: both unsupervised tree constructors default `min_samples_split` to 5
— not the 2 their docstrings document — so with all-default parameters the
builder's stopping predicate marks every node with fewer than 5 samples a
leaf: it is never split. -/
theorem C10_unsupervised_min_samples_split_default
    (max_depth : Option Nat) (depth n_node_samples : Nat)
    (node_is_pure no_admissible_split : Bool) (h : n_node_samples < 5) :
    SkTree.unsupervised_decision_tree_defaults.min_samples_split = 5
      ∧ SkTree.unsupervised_oblique_decision_tree_defaults.min_samples_split = 5
      ∧ SkTree.documented_min_samples_split_default = 2
      ∧ SkTree.stopping_predicate max_depth
          SkTree.unsupervised_decision_tree_defaults.min_samples_split
          depth n_node_samples node_is_pure no_admissible_split = true := by
  refine ⟨rfl, rfl, rfl, ?_⟩
  simp [SkTree.stopping_predicate, SkTree.unsupervised_decision_tree_defaults, h]

/-- C10 witness: a 4-sample node at depth 0 with no depth bound is marked a
leaf under the default configuration. -/
theorem C10_unsupervised_min_samples_split_default_witness :
    SkTree.unsupervised_decision_tree_defaults.min_samples_split = 5
      ∧ SkTree.unsupervised_oblique_decision_tree_defaults.min_samples_split = 5
      ∧ SkTree.documented_min_samples_split_default = 2
      ∧ SkTree.stopping_predicate none
          SkTree.unsupervised_decision_tree_defaults.min_samples_split
          0 4 false false = true :=
  C10_unsupervised_min_samples_split_default none 0 4 false false (by decide)

/-- C2 witness: concrete evaluation at `X_leaves = [7, 4, 7]`, `i = 0`,
`j = 1`. -/
theorem C2_affinity_matrix_invariants_witness :
    (SkTree.compute_affinity_matrix [7, 4, 7]).length = ([7, 4, 7] : List Nat).length
      ∧ (∀ row ∈ SkTree.compute_affinity_matrix [7, 4, 7],
          row.length = ([7, 4, 7] : List Nat).length)
      ∧ SkTree.compute_affinity_matrix_fn [7, 4, 7] 0 1
          = SkTree.compute_affinity_matrix_fn [7, 4, 7] 1 0
      ∧ 0 ≤ SkTree.compute_affinity_matrix_fn [7, 4, 7] 0 1
      ∧ SkTree.compute_affinity_matrix_fn [7, 4, 7] 0 0 = 1 :=
  C2_affinity_matrix_invariants [7, 4, 7] 0 1 (by decide) (by decide)
